import Mathlib

/-!
# Road classification and instruction rendering of the routing engine

A shallow embedding of

* `include/engine/guidance/classification_data.hpp`
  (`FunctionalRoadClass`, `functionalRoadClassFromTag`, `isRampClass`,
  `RoadClassificationData`),
* `src/engine/guidance/classification_data.cpp` (`RoadClassificationData::augment`),
* `src/engine/api/json_factory.cpp` and `src/engine/api/josn_factory.cpp`
  (`instructionToString`),
* the stages declared in `include/extractor/turn_analysis.hpp`,
* `include/util/rectangle.hpp` (`RectangleInt2D`) and the world bounds of
  `src/benchmarks/static_rtree.cpp`,

followed by the properties established about them.
-/

namespace Osrm

/-! ## `classification_data.hpp` -/

/-- The enumeration `FunctionalRoadClass : short`, constructors in declaration order. -/
inductive FunctionalRoadClass where
  | UNKNOWN
  | MOTORWAY
  | MOTORWAY_LINK
  | TRUNK
  | TRUNK_LINK
  | PRIMARY
  | PRIMARY_LINK
  | SECONDARY
  | SECONDARY_LINK
  | TERTIARY
  | TERTIARY_LINK
  | UNCLASSIFIED
  | RESIDENTIAL
  | SERVICE
  | LIVING_STREET
  | LOW_PRIORITY_ROAD
  deriving DecidableEq, Repr, Inhabited

/-- The numeric value of an enumerator: `UNKNOWN = 0`, each later one is one more. -/
def FunctionalRoadClass.toShort : FunctionalRoadClass → Int
  | .UNKNOWN => 0
  | .MOTORWAY => 1
  | .MOTORWAY_LINK => 2
  | .TRUNK => 3
  | .TRUNK_LINK => 4
  | .PRIMARY => 5
  | .PRIMARY_LINK => 6
  | .SECONDARY => 7
  | .SECONDARY_LINK => 8
  | .TERTIARY => 9
  | .TERTIARY_LINK => 10
  | .UNCLASSIFIED => 11
  | .RESIDENTIAL => 12
  | .SERVICE => 13
  | .LIVING_STREET => 14
  | .LOW_PRIORITY_ROAD => 15

/-- A `std::unordered_map<std::string, FunctionalRoadClass>` as a list of entries with
    pairwise different keys; iteration order is never observed by the code. -/
abbrev ClassHash := List (String × FunctionalRoadClass)

/-- The statement `hash[key] = value`: overwrite the entry of `key`, or add one. -/
def hashAssign : ClassHash → String → FunctionalRoadClass → ClassHash
  | [], key, value => [(key, value)]
  | (k, v) :: rest, key, value =>
      if k = key then (key, value) :: rest else (k, v) :: hashAssign rest key value

/-- The call `hash.find(key)`: `none` stands for `hash.end()`, `some v` for an iterator
    whose `->second` is `v`. -/
def hashFind : ClassHash → String → Option FunctionalRoadClass
  | [], _ => none
  | (k, v) :: rest, key => if k = key then some v else hashFind rest key

/-- The eighteen assignments of the lambda `initializeClassHash`, in source order. -/
def classHashAssignments : List (String × FunctionalRoadClass) :=
  [ ("motorway", .MOTORWAY),
    ("motorway_link", .MOTORWAY_LINK),
    ("trunk", .TRUNK),
    ("trunk_link", .TRUNK_LINK),
    ("primary", .PRIMARY),
    ("primary_link", .PRIMARY_LINK),
    ("secondary", .SECONDARY),
    ("secondary_link", .SECONDARY_LINK),
    ("tertiary", .TERTIARY),
    ("tertiary_link", .TERTIARY_LINK),
    ("unclassified", .UNCLASSIFIED),
    ("residential", .RESIDENTIAL),
    ("service", .SERVICE),
    ("living_street", .LIVING_STREET),
    ("track", .LOW_PRIORITY_ROAD),
    ("road", .LOW_PRIORITY_ROAD),
    ("path", .LOW_PRIORITY_ROAD),
    ("driveway", .LOW_PRIORITY_ROAD) ]

/-- The lambda `initializeClassHash`: start from the empty map and run the assignments. -/
def initializeClassHash : ClassHash :=
  classHashAssignments.foldl (fun hash kv => hashAssign hash kv.1 kv.2) []

/-- The static local `class_hash`. -/
def class_hash : ClassHash := initializeClassHash

/-- The function `functionalRoadClassFromTag` together with what it writes to the debug
    log: a found tag returns its class and logs nothing, any other tag logs one line and
    returns `UNKNOWN`. -/
def functionalRoadClassFromTagLogged (value : String) : FunctionalRoadClass × List String :=
  match hashFind class_hash value with
  | some road_class => (road_class, [])
  | none => (.UNKNOWN, ["Unknown road class encountered: " ++ value])

/-- The value returned by `functionalRoadClassFromTag`. -/
def functionalRoadClassFromTag (value : String) : FunctionalRoadClass :=
  (functionalRoadClassFromTagLogged value).1

/-- The predicate `isRampClass`. -/
def isRampClass (road_class : FunctionalRoadClass) : Bool :=
  road_class == .MOTORWAY_LINK || road_class == .TRUNK_LINK

/-- The highway values that `initializeClassHash` enters into the map. -/
def recognisedTags : List String := classHashAssignments.map Prod.fst

/-! ## `classification_data.cpp`: `RoadClassificationData::augment` -/

/-- The constant `INVALID_FEATURE_ID`. -/
def INVALID_FEATURE_ID : Nat := 0

/-- The structure `RoadClassificationData`; `feature_id` is an `unsigned`, a number
    below `2 ^ 32`. The defaults are the member initialisers. -/
structure RoadClassificationData where
  road_class : FunctionalRoadClass := .UNKNOWN
  feature_id : Nat := INVALID_FEATURE_ID
  deriving DecidableEq, Repr

/-- The tags of an `osmium::Way`, in the order the way lists them: key and value. -/
abbrev Way := List (String × String)

/-- The call `way.get_value_by_key(key)` of the osmium library: the value of the first
    tag with that key, or `none` for the null pointer when the way has no such tag. -/
def get_value_by_key : Way → String → Option String
  | [], _ => none
  | (k, v) :: rest, key => if k = key then some v else get_value_by_key rest key

/-- The exceptions `std::stoi` throws. -/
inductive StoiError where
  | invalid_argument
  | out_of_range
  deriving DecidableEq, Repr

/-- The characters `std::isspace` accepts in the C locale: space, tab, line feed,
    vertical tab, form feed, carriage return. -/
def isSpace (c : Char) : Bool :=
  c.toNat = 32 || (9 ≤ c.toNat && c.toNat ≤ 13)

/-- The value of a run of decimal digits. -/
def digitsValue (ds : List Char) : Nat :=
  ds.foldl (fun acc c => 10 * acc + (c.toNat - 48)) 0

/-- The call `std::stoi(str)` of the standard library (base 10, no position output):
    leading white space is skipped, one sign is accepted, the longest run of digits is
    read and whatever follows is ignored; without a digit the call throws
    `std::invalid_argument`, with a value outside the range of `int` it throws
    `std::out_of_range`. -/
def stoi (str : String) : Except StoiError Int :=
  let body := str.toList.dropWhile isSpace
  let signed : Bool × List Char :=
    match body with
    | '-' :: rest => (true, rest)
    | '+' :: rest => (false, rest)
    | rest => (false, rest)
  let digits := signed.2.takeWhile Char.isDigit
  if digits.isEmpty then .error .invalid_argument
  else
    let magnitude : Int := digitsValue digits
    let value : Int := if signed.1 then -magnitude else magnitude
    if value < -(2 : Int) ^ 31 ∨ (2 : Int) ^ 31 - 1 < value then .error .out_of_range
    else .ok value

/-- The conversion of an `int` to `unsigned` in the assignment `feature_id = ...`. -/
def toUnsigned (value : Int) : Nat := (value % (2 : Int) ^ 32).toNat

/-- The member function `RoadClassificationData::augment`: a present `highway` tag sets
    `road_class`, a present `feature_id` tag sets `feature_id` through `std::stoi`. The
    function has no handler, so an exception of `std::stoi` leaves it; that is the
    `error` result. -/
def RoadClassificationData.augment (self : RoadClassificationData) (way : Way) :
    Except StoiError RoadClassificationData :=
  let data := get_value_by_key way "highway"
  let self1 : RoadClassificationData :=
    match data with
    | some value => { self with road_class := functionalRoadClassFromTag value }
    | none => self
  let feature := get_value_by_key way "feature_id"
  match feature with
  | some text =>
    match stoi text with
    | .ok value => .ok { self1 with feature_id := toUnsigned value }
    | .error e => .error e
  | none => .ok self1

/-! ## `json_factory.cpp` and `josn_factory.cpp`: `instructionToString` -/

/-- Modelled from the spec: the declaration of the enumeration `extractor::TurnInstruction`
    (header `extractor/turn_instructions.hpp`) is not among the sources. Its enumerators
    are the twenty-two names that the `case` labels of `instructionToString` mention,
    which cover the instruction kinds the data model lists (straight, the turns, U-turn,
    the roundabout instructions, depart, arrive, name change, via location, and the
    internal restriction markers). -/
inductive TurnInstruction where
  | NoTurn
  | GoStraight
  | TurnSlightRight
  | TurnRight
  | TurnSharpRight
  | UTurn
  | TurnSharpLeft
  | TurnLeft
  | TurnSlightLeft
  | ReachViaLocation
  | HeadOn
  | EnterRoundAbout
  | LeaveRoundAbout
  | StayOnRoundAbout
  | StartAtEndOfStreet
  | ReachedYourDestination
  | NameChanges
  | EnterAgainstAllowedDirection
  | LeaveAgainstAllowedDirection
  | InverseAccessRestrictionFlag
  | AccessRestrictionFlag
  | AccessRestrictionPenalty
  deriving DecidableEq, Repr, Inhabited

/-- Every enumerator, in the order of the declaration above. -/
def TurnInstruction.all : List TurnInstruction :=
  [ .NoTurn, .GoStraight, .TurnSlightRight, .TurnRight, .TurnSharpRight, .UTurn,
    .TurnSharpLeft, .TurnLeft, .TurnSlightLeft, .ReachViaLocation, .HeadOn,
    .EnterRoundAbout, .LeaveRoundAbout, .StayOnRoundAbout, .StartAtEndOfStreet,
    .ReachedYourDestination, .NameChanges, .EnterAgainstAllowedDirection,
    .LeaveAgainstAllowedDirection, .InverseAccessRestrictionFlag, .AccessRestrictionFlag,
    .AccessRestrictionPenalty ]

/-- The body that a `case` label of the `switch` leads to. -/
inductive CaseBody where
  /-- The statements `token = "..."; break;`. -/
  | setToken (token : String)
  /-- The statements `BOOST_ASSERT_MSG(false, msg); break;`. -/
  | assertFalse (msg : String)
  deriving DecidableEq, Repr

/-- What a call of `instructionToString` does: the string it returns (`token` starts
    empty and is returned as it stands after the `switch`), and the message of the
    `BOOST_ASSERT_MSG(false, ...)` it reached, if it reached one. With assertions
    compiled in, reaching one aborts the program; with assertions compiled out the call
    returns `token`. -/
structure Rendered where
  token : String
  assertion : Option String
  deriving DecidableEq, Repr

/-- The `case` labels of the `switch` in `instructionToString`, in source order, each
    with the body it leads to; the seven labels that fall through to one body are
    listed with that body. The labels are the same in both files. -/
def instructionCases : List (TurnInstruction × CaseBody) :=
  [ (.GoStraight, .setToken "continue"),
    (.TurnSlightRight, .setToken "bear right"),
    (.TurnRight, .setToken "right"),
    (.TurnSharpRight, .setToken "sharp right"),
    (.UTurn, .setToken "uturn"),
    (.TurnSharpLeft, .setToken "sharp left"),
    (.TurnLeft, .setToken "left"),
    (.TurnSlightLeft, .setToken "bear left"),
    (.HeadOn, .setToken "head on"),
    (.EnterRoundAbout, .setToken "enter roundabout"),
    (.LeaveRoundAbout, .setToken "leave roundabout"),
    (.StayOnRoundAbout, .setToken "stay on roundabout"),
    (.StartAtEndOfStreet, .setToken "depart"),
    (.ReachedYourDestination, .setToken "arrive"),
    (.NameChanges, .setToken "name changed"),
    (.NoTurn, .assertFalse "Invalid turn type used"),
    (.ReachViaLocation, .assertFalse "Invalid turn type used"),
    (.EnterAgainstAllowedDirection, .assertFalse "Invalid turn type used"),
    (.LeaveAgainstAllowedDirection, .assertFalse "Invalid turn type used"),
    (.InverseAccessRestrictionFlag, .assertFalse "Invalid turn type used"),
    (.AccessRestrictionFlag, .assertFalse "Invalid turn type used"),
    (.AccessRestrictionPenalty, .assertFalse "Invalid turn type used") ]

/-- Selection of the `case` whose label equals the scrutinee; `none` when no label
    does. -/
def switchCase : List (TurnInstruction × CaseBody) → TurnInstruction → Option CaseBody
  | [], _ => none
  | (label, body) :: rest, instruction =>
      if label = instruction then some body else switchCase rest instruction

/-- Execution of a `case` body on the initially empty `token`. -/
def runCaseBody : CaseBody → Rendered
  | .setToken token => { token := token, assertion := none }
  | .assertFalse msg => { token := "", assertion := some msg }

namespace JsonFactory

/-- The function `instructionToString` of `json_factory.cpp`: the `switch` ends in
    `default: BOOST_ASSERT_MSG(false, "unknown TurnInstruction")`. -/
def instructionToString (instruction : TurnInstruction) : Rendered :=
  match switchCase instructionCases instruction with
  | some body => runCaseBody body
  | none => { token := "", assertion := some "unknown TurnInstruction" }

end JsonFactory

namespace JosnFactory

/-- The function `instructionToString` of `josn_factory.cpp`: the `switch` has no
    `default`, so a value without a label leaves `token` empty. -/
def instructionToString (instruction : TurnInstruction) : Rendered :=
  match switchCase instructionCases instruction with
  | some body => runCaseBody body
  | none => { token := "", assertion := none }

end JosnFactory

/-- The instructions that are internal only: those whose labels lead to the assertion
    `Invalid turn type used`. -/
def internalOnly : List TurnInstruction :=
  [ .NoTurn, .ReachViaLocation, .EnterAgainstAllowedDirection,
    .LeaveAgainstAllowedDirection, .AccessRestrictionFlag, .AccessRestrictionPenalty,
    .InverseAccessRestrictionFlag ]

/-! ## `turn_analysis.hpp`

The header declares the stages of the turn analysis; their bodies
(`turn_analysis.cpp`) and the headers of the guidance types are not among the sources.
`TurnCandidate` is translated from the header, the stages are modelled from the
specification. -/

/-- Node identifiers. -/
abbrev NodeID := Nat

/-- Edge identifiers. -/
abbrev EdgeID := Nat

namespace Guidance

/-- Modelled from the spec: the type `engine::guidance::TurnType`, whose header
    (`engine/guidance/turn_classification.hpp` and its toolkit) is not among the sources.
    The variants are those the data model lists, and `Ramp`, which the motorway
    junction rules assign. -/
inductive TurnType where
  | NoTurn
  | GoStraight
  | Turn
  | Ramp
  | UTurn
  | EnterRoundabout
  | StayOnRoundabout
  | LeaveRoundabout
  | StartAtEndOfStreet
  | ReachedYourDestination
  | NameChanges
  | ReachViaLocation
  | AccessRestrictionFlag
  | AccessRestrictionPenalty
  | EnterAgainstAllowedDirection
  | LeaveAgainstAllowedDirection
  deriving DecidableEq, Repr, Inhabited

/-- Modelled from the spec: the type `engine::guidance::DirectionModifier` of the same
    absent header; one variant for each sector of the angle space. -/
inductive DirectionModifier where
  | UTurn
  | SharpRight
  | Right
  | SlightRight
  | Straight
  | SlightLeft
  | Left
  | SharpLeft
  deriving DecidableEq, Repr, Inhabited

/-- Modelled from the spec: the type `engine::guidance::TurnInstruction` of the same
    absent header, a pair of a turn type and a direction modifier; `TurnCandidate::toString`
    reads exactly these two members. -/
structure TurnInstruction where
  type : TurnType
  direction_modifier : DirectionModifier
  deriving DecidableEq, Repr, Inhabited

end Guidance

/-- The structure `TurnCandidate` of the header. The two members of type `double` are
    rationals here: the modelled stages only copy and compare them. -/
structure TurnCandidate where
  eid : EdgeID
  valid : Bool
  angle : ℚ
  instruction : Guidance.TurnInstruction
  confidence : ℚ
  deriving DecidableEq

/-- Modelled from the spec: the attributes of an edge that the modelled stages read
    (the graph type `util::NodeBasedDynamicGraph` is not among the sources): the name
    identifier, the functional road class, the one-way flag and, for a one-way edge,
    whether travel runs against the arc, and the roundabout-membership flag. -/
structure EdgeData where
  name_id : Nat
  road_class : FunctionalRoadClass
  oneway : Bool
  reversed : Bool
  roundabout : Bool := false
  deriving DecidableEq, Repr

/-- Modelled from the spec: the read-only road graph, as the attribute lookup by edge
    identifier. -/
structure NodeBasedDynamicGraph where
  GetEdgeData : EdgeID → EdgeData

/-- Modelled from the spec: the thresholds that the specification names without giving
    them a value: the tolerance within which two bearings count as near-parallel, the
    confidence above which a candidate may be obvious, and the width of the angular
    band in which another candidate competes. -/
structure Thresholds where
  merge_tolerance : ℚ
  obvious_confidence : ℚ
  narrow_band : ℚ

/-- The deviation between two angles in degrees, measured the short way round. -/
def angularDeviation (a b : ℚ) : ℚ :=
  let d := |a - b|
  if 180 < d then 360 - d else d

/-- Modelled from the spec: the symptoms by which the segregated-road merger detects
    the two directions of one divided road among the candidates: near-parallel within
    the tolerance, opposite one-way directionality, same name. -/
def isSegregatedPair (t : Thresholds) (g : NodeBasedDynamicGraph) (a b : TurnCandidate) :
    Bool :=
  let da := g.GetEdgeData a.eid
  let db := g.GetEdgeData b.eid
  decide (angularDeviation a.angle b.angle ≤ t.merge_tolerance) &&
    (da.oneway && db.oneway && (da.reversed != db.reversed)) &&
    (da.name_id == db.name_id)

/-- Modelled from the spec: the merge of a detected pair. The representative is the
    candidate of higher validity, and among equally valid ones the one of higher
    confidence; the merged candidate is valid when either of the two is. -/
def mergeCandidates (a b : TurnCandidate) : TurnCandidate :=
  let keepFirst : Bool := if a.valid = b.valid then decide (b.confidence ≤ a.confidence) else a.valid
  let representative := if keepFirst then a else b
  { representative with valid := a.valid || b.valid }

/-- Modelled from the spec: the first later candidate that forms a detected pair with
    `c`, and the list without it. -/
def takePartner (t : Thresholds) (g : NodeBasedDynamicGraph) (c : TurnCandidate) :
    List TurnCandidate → Option (TurnCandidate × List TurnCandidate)
  | [] => none
  | d :: rest =>
      if isSegregatedPair t g c d then some (d, rest)
      else
        match takePartner t g c rest with
        | some (partner, rest1) => some (partner, d :: rest1)
        | none => none

/-- Modelled from the spec: one merge. The first candidate that has a partner is
    replaced by the merge of the two, and the partner is dropped; `none` when no pair
    is detected. -/
def mergeStep (t : Thresholds) (g : NodeBasedDynamicGraph) :
    List TurnCandidate → Option (List TurnCandidate)
  | [] => none
  | c :: rest =>
      match takePartner t g c rest with
      | some (partner, rest1) => some (mergeCandidates c partner :: rest1)
      | none =>
        match mergeStep t g rest with
        | some rest1 => some (c :: rest1)
        | none => none

/-- Modelled from the spec: merging repeated while a pair is detected, at most `fuel`
    times. -/
def mergeLoop (t : Thresholds) (g : NodeBasedDynamicGraph) :
    Nat → List TurnCandidate → List TurnCandidate
  | 0, turn_candidates => turn_candidates
  | fuel + 1, turn_candidates =>
      match mergeStep t g turn_candidates with
      | some merged => mergeLoop t g fuel merged
      | none => turn_candidates

/-- Modelled from the spec: the body of `detail::mergeSegregatedRoads` is in
    `turn_analysis.cpp`, which is not among the sources; only its declaration is. The
    segregated-road merger detects pairs of candidates that are the two directions of
    one divided road and merges each detected pair into one candidate, the other being
    dropped. Every merge removes one candidate, so as many rounds as there are candidates
    leave no detected pair. The specification names neither `from_node` nor `via_eid`
    in the detection, so the model does not read them. -/
def mergeSegregatedRoads (t : Thresholds) (_from_node : NodeID) (_via_eid : EdgeID)
    (turn_candidates : List TurnCandidate) (node_based_graph : NodeBasedDynamicGraph) :
    List TurnCandidate :=
  mergeLoop t node_based_graph turn_candidates.length turn_candidates

/-- Modelled from the spec: a valid, non-ramp continuation whose name matches the name
    of the incoming edge. -/
def continuesName (g : NodeBasedDynamicGraph) (via_eid : EdgeID) (c : TurnCandidate) :
    Bool :=
  c.valid && !isRampClass (g.GetEdgeData c.eid).road_class &&
    ((g.GetEdgeData c.eid).name_id == (g.GetEdgeData via_eid).name_id)

/-- Modelled from the spec: the body of `detail::isObviousChoice` is not among the
    sources. The candidate at `turn_index` is the obvious choice when it is the only
    valid, non-ramp continuation whose name matches the incoming edge, or when its
    confidence exceeds the high threshold and no other valid candidate lies within the
    narrow angular band around it. -/
def isObviousChoice (t : Thresholds) (via_eid : EdgeID) (turn_index : Nat)
    (turn_candidates : List TurnCandidate) (node_based_graph : NodeBasedDynamicGraph) :
    Bool :=
  match turn_candidates.get? turn_index with
  | none => false
  | some c =>
    let others := turn_candidates.eraseIdx turn_index
    (continuesName node_based_graph via_eid c &&
        others.all (fun d => !continuesName node_based_graph via_eid d)) ||
      (decide (t.obvious_confidence < c.confidence) &&
        others.all (fun d =>
          !d.valid || decide (t.narrow_band < angularDeviation c.angle d.angle)))

/-- Modelled from the spec: what suppression does to one candidate: an obvious
    `GoStraight` or `NameChanges` is downgraded to `NoTurn`, anything else stays. -/
def suppressCandidate (obvious : Bool) (c : TurnCandidate) : TurnCandidate :=
  if obvious && (c.instruction.type == .GoStraight || c.instruction.type == .NameChanges) then
    { c with instruction := { c.instruction with type := .NoTurn } }
  else c

/-- Modelled from the spec: suppression of the candidates from position `index` on,
    obviousness being judged within the whole candidate list `all`. -/
def suppressFrom (t : Thresholds) (via_eid : EdgeID) (g : NodeBasedDynamicGraph)
    (all : List TurnCandidate) : Nat → List TurnCandidate → List TurnCandidate
  | _, [] => []
  | index, c :: rest =>
      suppressCandidate (isObviousChoice t via_eid index all g) c ::
        suppressFrom t via_eid g all (index + 1) rest

/-- Modelled from the spec: the body of `detail::suppressTurns` is in
    `turn_analysis.cpp`, which is not among the sources; only its declaration is. The
    obviousness suppressor downgrades the obvious `GoStraight` and `NameChanges`
    instructions to `NoTurn`; the candidates keep their geometric data. -/
def suppressTurns (t : Thresholds) (via_eid : EdgeID) (turn_candidates : List TurnCandidate)
    (node_based_graph : NodeBasedDynamicGraph) : List TurnCandidate :=
  suppressFrom t via_eid node_based_graph turn_candidates 0 turn_candidates

/-! ## A junction used to exercise the modelled stages -/

/-- A graph in which the edges 1 and 2 are the two one-way directions of the road of
    name 7 and every other edge is a two-way residential road of name 9. -/
def exampleGraph : NodeBasedDynamicGraph :=
  { GetEdgeData := fun e =>
      if e = 1 then { name_id := 7, road_class := .PRIMARY, oneway := true, reversed := false }
      else if e = 2 then
        { name_id := 7, road_class := .PRIMARY, oneway := true, reversed := true }
      else { name_id := 9, road_class := .RESIDENTIAL, oneway := false, reversed := false } }

/-- Thresholds for the example: 30 degrees, confidence 80, a band of 20 degrees. -/
def exampleThresholds : Thresholds :=
  { merge_tolerance := 30, obvious_confidence := 80, narrow_band := 20 }

/-- The candidate for the side road, edge 4, to the right. -/
def sideRoad : TurnCandidate :=
  { eid := 4, valid := true, angle := 90, instruction := ⟨.Turn, .Right⟩, confidence := 90 }

/-- The candidate for the carriageway that can be entered, edge 1. -/
def carriagewayAhead : TurnCandidate :=
  { eid := 1, valid := true, angle := 170, instruction := ⟨.GoStraight, .Straight⟩,
    confidence := 50 }

/-- The candidate for the carriageway of the opposite direction, edge 2. -/
def carriagewayBack : TurnCandidate :=
  { eid := 2, valid := false, angle := 190, instruction := ⟨.GoStraight, .Straight⟩,
    confidence := 40 }

/-! ## `classification_data.hpp`: equality of `RoadClassificationData` -/

/-- The free function `operator==` on `RoadClassificationData`: it compares `road_class`
    and nothing else. -/
def RoadClassificationData.operatorEq (lhs rhs : RoadClassificationData) : Bool :=
  lhs.road_class == rhs.road_class

/-! ## `rectangle.hpp` -/

/-- The value `std::numeric_limits<int32_t>::min()`. -/
def INT32_MIN : Int := -(2 : Int) ^ 31

/-- The value `std::numeric_limits<int32_t>::max()`. -/
def INT32_MAX : Int := (2 : Int) ^ 31 - 1

/-- The value a signed 32-bit result wraps to. -/
def wrapInt32 (x : Int) : Int := (x + (2 : Int) ^ 31) % (2 : Int) ^ 32 - (2 : Int) ^ 31

/-- Modelled from the spec: the declaration of `util::Coordinate` (`osrm/coordinate.hpp`)
    is not among the sources. A coordinate is the geographic position of a node; its
    members are the `lon` and `lat` that `rectangle.hpp` reads, fixed-point numbers
    held in 32-bit integers. -/
structure Coordinate where
  lon : Int
  lat : Int
  deriving DecidableEq, Repr

/-- The structure `RectangleInt2D`: four 32-bit fixed-point bounds. -/
structure RectangleInt2D where
  min_lon : Int
  max_lon : Int
  min_lat : Int
  max_lat : Int
  deriving DecidableEq, Repr

namespace RectangleInt2D

/-- The default constructor `RectangleInt2D()`: the minima start at the greatest and
    the maxima at the least 32-bit value. -/
def defaultConstructed : RectangleInt2D :=
  { min_lon := INT32_MAX, max_lon := INT32_MIN, min_lat := INT32_MAX, max_lat := INT32_MIN }

/-- Every bound is a value of `int32_t`. -/
def InRange (self : RectangleInt2D) : Prop :=
  (INT32_MIN ≤ self.min_lon ∧ self.min_lon ≤ INT32_MAX) ∧
  (INT32_MIN ≤ self.max_lon ∧ self.max_lon ≤ INT32_MAX) ∧
  (INT32_MIN ≤ self.min_lat ∧ self.min_lat ≤ INT32_MAX) ∧
  (INT32_MIN ≤ self.max_lat ∧ self.max_lat ≤ INT32_MAX)

instance (self : RectangleInt2D) : Decidable self.InRange := by
  unfold InRange; infer_instance

/-- The rectangle is not inverted: `min_lon <= max_lon` and `min_lat <= max_lat`. -/
def WellFormed (self : RectangleInt2D) : Prop :=
  self.min_lon ≤ self.max_lon ∧ self.min_lat ≤ self.max_lat

instance (self : RectangleInt2D) : Decidable self.WellFormed := by
  unfold WellFormed; infer_instance

/-- The member function `Contains`. -/
def Contains (self : RectangleInt2D) (location : Coordinate) : Bool :=
  let lons_contained :=
    decide (location.lon ≥ self.min_lon) && decide (location.lon ≤ self.max_lon)
  let lats_contained :=
    decide (location.lat ≥ self.min_lat) && decide (location.lat ≤ self.max_lat)
  lons_contained && lats_contained

/-- The member function `MergeBoundingBoxes`: the rectangle after the four assignments. -/
def MergeBoundingBoxes (self other : RectangleInt2D) : RectangleInt2D :=
  { min_lon := min self.min_lon other.min_lon,
    max_lon := max self.max_lon other.max_lon,
    min_lat := min self.min_lat other.min_lat,
    max_lat := max self.max_lat other.max_lat }

/-- The four `BOOST_ASSERT`s that close `MergeBoundingBoxes`, evaluated on the rectangle
    after the assignments: no bound is `std::numeric_limits<int32_t>::min()`. -/
def MergeBoundingBoxes_assertions (self other : RectangleInt2D) : Bool :=
  let merged := self.MergeBoundingBoxes other
  decide (merged.min_lon ≠ INT32_MIN) && decide (merged.min_lat ≠ INT32_MIN) &&
    decide (merged.max_lon ≠ INT32_MIN) && decide (merged.max_lat ≠ INT32_MIN)

/-- The member function `Centroid`: the sum of two bounds is a 32-bit sum, the division
    by two truncates towards zero. -/
def Centroid (self : RectangleInt2D) : Coordinate :=
  { lon := Int.tdiv (wrapInt32 (self.min_lon + self.max_lon)) 2,
    lat := Int.tdiv (wrapInt32 (self.min_lat + self.max_lat)) 2 }

/-- The member function `Intersects`: whether this rectangle contains one of the four
    corners of `other`. -/
def Intersects (self other : RectangleInt2D) : Bool :=
  let upper_left : Coordinate := { lon := other.min_lon, lat := other.max_lat }
  let upper_right : Coordinate := { lon := other.max_lon, lat := other.max_lat }
  let lower_right : Coordinate := { lon := other.max_lon, lat := other.min_lat }
  let lower_left : Coordinate := { lon := other.min_lon, lat := other.min_lat }
  self.Contains upper_left || self.Contains upper_right || self.Contains lower_right ||
    self.Contains lower_left

end RectangleInt2D

/-- The enumerators of the local `enum Direction` of `GetMinDist`, as their numbers:
    the code combines them with bitwise or. -/
abbrev Direction := Nat

namespace Direction

/-- The enumerator `INVALID = 0`. -/
def INVALID : Direction := 0
/-- The enumerator `NORTH = 1`. -/
def NORTH : Direction := 1
/-- The enumerator `SOUTH = 2`. -/
def SOUTH : Direction := 2
/-- The enumerator `EAST = 4`. -/
def EAST : Direction := 4
/-- The enumerator `NORTH_EAST = 5`. -/
def NORTH_EAST : Direction := 5
/-- The enumerator `SOUTH_EAST = 6`. -/
def SOUTH_EAST : Direction := 6
/-- The enumerator `WEST = 8`. -/
def WEST : Direction := 8
/-- The enumerator `NORTH_WEST = 9`. -/
def NORTH_WEST : Direction := 9
/-- The enumerator `SOUTH_WEST = 10`. -/
def SOUTH_WEST : Direction := 10

end Direction

/-- What a call of `GetMinDist` does: the value it returns, the direction code `d` it
    reached `BOOST_ASSERT(d != INVALID)` with and whether that assertion held, whether
    the `switch` took its `default` branch, and whether the closing assertion
    `min_dist < max` held. A call that returns early reaches neither assertion nor the
    `switch`; its code is `INVALID` and its assertions count as held. -/
structure MinDistRun where
  min_dist : ℚ
  d : Direction
  direction_assertion : Bool
  default_branch : Bool
  min_dist_assertion : Bool

namespace RectangleInt2D

/-- The direction code that `GetMinDist` computes for a location, from `d = INVALID`
    through the two `if`/`else if` statements. -/
def GetMinDist_direction (self : RectangleInt2D) (location : Coordinate) : Direction :=
  let d0 : Direction := Direction.INVALID
  let d1 : Direction :=
    if location.lat > self.max_lat then d0 ||| Direction.NORTH
    else if location.lat < self.min_lat then d0 ||| Direction.SOUTH
    else d0
  let d2 : Direction :=
    if location.lon > self.max_lon then d1 ||| Direction.EAST
    else if location.lon < self.min_lon then d1 ||| Direction.WEST
    else d1
  d2

/-- The `switch` of `GetMinDist`: the point whose distance from the location is taken
    under each `case`, in source order; `none` is the `default` branch. -/
def GetMinDist_switch (self : RectangleInt2D) (location : Coordinate) (d : Direction) :
    Option Coordinate :=
  if d = Direction.NORTH then some { lon := location.lon, lat := self.max_lat }
  else if d = Direction.SOUTH then some { lon := location.lon, lat := self.min_lat }
  else if d = Direction.WEST then some { lon := self.min_lon, lat := location.lat }
  else if d = Direction.EAST then some { lon := self.max_lon, lat := location.lat }
  else if d = Direction.NORTH_EAST then some { lon := self.max_lon, lat := self.max_lat }
  else if d = Direction.NORTH_WEST then some { lon := self.min_lon, lat := self.max_lat }
  else if d = Direction.SOUTH_EAST then some { lon := self.max_lon, lat := self.min_lat }
  else if d = Direction.SOUTH_WEST then some { lon := self.min_lon, lat := self.min_lat }
  else none

/-- The member function `GetMinDist`. The function `greatCircleDistance` of
    `util/coordinate_calculation.hpp` is not among the sources and is a parameter, as
    is the value `std::numeric_limits<double>::max()`. -/
def GetMinDist (greatCircleDistance : Coordinate → Coordinate → ℚ) (DBL_MAX : ℚ)
    (self : RectangleInt2D) (location : Coordinate) : MinDistRun :=
  let is_contained := self.Contains location
  if is_contained then
    { min_dist := 0, d := Direction.INVALID, direction_assertion := true,
      default_branch := false, min_dist_assertion := true }
  else
    let d := self.GetMinDist_direction location
    let target := self.GetMinDist_switch location d
    let min_dist : ℚ :=
      match target with
      | some point => greatCircleDistance location point
      | none => DBL_MAX
    { min_dist := min_dist, d := d, direction_assertion := decide (d ≠ Direction.INVALID),
      default_branch := target.isNone, min_dist_assertion := decide (min_dist < DBL_MAX) }

end RectangleInt2D

/-! ## `benchmarks/static_rtree.cpp`: the world bounds -/

/-- The constant `WORLD_MIN_LAT`; the constant `COORDINATE_PRECISION` it is a multiple of
    is not among the sources and is a parameter. -/
def WORLD_MIN_LAT (COORDINATE_PRECISION : Int) : Int := -90 * COORDINATE_PRECISION

/-- The constant `WORLD_MAX_LAT`. -/
def WORLD_MAX_LAT (COORDINATE_PRECISION : Int) : Int := 90 * COORDINATE_PRECISION

/-- The constant `WORLD_MIN_LON`. -/
def WORLD_MIN_LON (COORDINATE_PRECISION : Int) : Int := -180 * COORDINATE_PRECISION

/-- The constant `WORLD_MAX_LON`. -/
def WORLD_MAX_LON (COORDINATE_PRECISION : Int) : Int := 180 * COORDINATE_PRECISION

/-- The bounds of the rectangle lie within the world bounds. -/
def RectangleInt2D.WithinWorld (COORDINATE_PRECISION : Int) (self : RectangleInt2D) : Prop :=
  (WORLD_MIN_LON COORDINATE_PRECISION ≤ self.min_lon ∧
    self.max_lon ≤ WORLD_MAX_LON COORDINATE_PRECISION) ∧
  (WORLD_MIN_LAT COORDINATE_PRECISION ≤ self.min_lat ∧
    self.max_lat ≤ WORLD_MAX_LAT COORDINATE_PRECISION)

/-! ## `turn_analysis.hpp`: the roundabout handler and `turnOrRamp` -/

/-- Replacement of the turn type of a candidate, the direction modifier being kept. -/
def TurnCandidate.withType (c : TurnCandidate) (type : Guidance.TurnType) : TurnCandidate :=
  { c with instruction := { c.instruction with type := type } }

/-- Modelled from the spec: the roundabout policy for one candidate. On the roundabout,
    a continuation that stays on it is `StayOnRoundabout` and a valid continuation that
    leaves the ring is `LeaveRoundabout`; not yet on the roundabout, a candidate that
    enters it is `EnterRoundabout`; any other candidate is left to the later stages. -/
def roundaboutCandidate (on_roundabout : Bool) (g : NodeBasedDynamicGraph)
    (c : TurnCandidate) : TurnCandidate :=
  let on_ring := (g.GetEdgeData c.eid).roundabout
  if on_roundabout then
    if on_ring then c.withType .StayOnRoundabout
    else if c.valid then c.withType .LeaveRoundabout
    else c
  else
    if on_ring then c.withType .EnterRoundabout
    else c

/-- Modelled from the spec: the body of `detail::handleRoundabouts` is in
    `turn_analysis.cpp`, which is not among the sources; only its declaration is. The
    roundabout handler applies the roundabout policy to every candidate. The policy is
    worded on the candidates and on `on_roundabout`; the flags `can_enter_roundabout`
    and `can_exit_roundabout` are computed by the caller from the same candidates, and
    the model does not read them, nor `from` and `via_edge`. -/
def handleRoundabouts (_from_node : NodeID) (_via_edge : EdgeID) (on_roundabout : Bool)
    (_can_enter_roundabout : Bool) (_can_exit_roundabout : Bool)
    (turn_candidates : List TurnCandidate) (node_based_graph : NodeBasedDynamicGraph) :
    List TurnCandidate :=
  turn_candidates.map (roundaboutCandidate on_roundabout node_based_graph)

/-- Modelled from the spec: the body of `detail::turnOrRamp` is in `turn_analysis.cpp`,
    which is not among the sources; only its declaration is. The turn type is `Ramp`
    when the class of the outgoing edge is a ramp class and that of the incoming edge
    is not, or the other way round for a merge, and `Turn` otherwise. -/
def turnOrRamp (_from_node : NodeID) (via_edge : EdgeID) (candidate : TurnCandidate)
    (node_based_graph : NodeBasedDynamicGraph) : Guidance.TurnType :=
  let in_ramp := isRampClass (node_based_graph.GetEdgeData via_edge).road_class
  let out_ramp := isRampClass (node_based_graph.GetEdgeData candidate.eid).road_class
  if (out_ramp && !in_ramp) || (!out_ramp && in_ramp) then .Ramp else .Turn

/-- A graph around a roundabout and a motorway exit: the edges 1 and 2 are on the
    roundabout, edge 3 is a residential road, edge 5 is a motorway and edge 6 its
    exit, a motorway link. -/
def exampleRing : NodeBasedDynamicGraph :=
  { GetEdgeData := fun e =>
      if e = 1 ∨ e = 2 then
        { name_id := 3, road_class := .SECONDARY, oneway := true, reversed := false,
          roundabout := true }
      else if e = 5 then
        { name_id := 8, road_class := .MOTORWAY, oneway := true, reversed := false }
      else if e = 6 then
        { name_id := 0, road_class := .MOTORWAY_LINK, oneway := true, reversed := false }
      else { name_id := 9, road_class := .RESIDENTIAL, oneway := false, reversed := false } }

/-- The candidate that continues on the ring, edge 2. -/
def ringAhead : TurnCandidate :=
  { eid := 2, valid := true, angle := 200, instruction := ⟨.NoTurn, .SlightLeft⟩,
    confidence := 60 }

/-- The candidate for a side road that may not be entered, edge 3. -/
def closedExit : TurnCandidate :=
  { eid := 3, valid := false, angle := 100, instruction := ⟨.NoTurn, .Right⟩,
    confidence := 60 }

/-- The candidate for the motorway exit, edge 6. -/
def motorwayExit : TurnCandidate :=
  { eid := 6, valid := true, angle := 160, instruction := ⟨.NoTurn, .SlightRight⟩,
    confidence := 30 }

/-! ## Properties of the road classification -/

/-- A key that is no entry of the map is not found. -/
theorem hashFind_eq_none (hash : ClassHash) (key : String)
    (h : key ∉ hash.map Prod.fst) : hashFind hash key = none := by
  induction hash with
  | nil => rfl
  | cons kv rest ih =>
    obtain ⟨k, v⟩ := kv
    simp only [List.map_cons, List.mem_cons, not_or] at h
    have hk : ¬ k = key := fun e => h.1 e.symm
    simp only [hashFind, if_neg hk]
    exact ih h.2

/-- A successful lookup returns the value of an entry stored under that key. -/
theorem hashFind_mem (hash : ClassHash) (key : String) (v : FunctionalRoadClass)
    (h : hashFind hash key = some v) : (key, v) ∈ hash := by
  induction hash with
  | nil => simp [hashFind] at h
  | cons kv rest ih =>
    obtain ⟨k, w⟩ := kv
    by_cases hk : k = key
    · simp only [hashFind, if_pos hk, Option.some.injEq] at h
      subst hk; subst h
      exact List.mem_cons_self _ _
    · simp only [hashFind, if_neg hk] at h
      exact List.mem_cons_of_mem _ (ih h)

/-- The eighteen keys are pairwise different, so no assignment overwrites an earlier one:
    the map holds exactly the assignments. -/
theorem class_hash_eq : class_hash = classHashAssignments := by decide

/-- C1: a tag value that is none of the eighteen highway values entered into the map
    makes `functionalRoadClassFromTag` return `UNKNOWN`; the call does not fail, it
    writes one line to the debug log. -/
theorem functionalRoadClassFromTag_unknown (value : String)
    (h : value ∉ recognisedTags) :
    functionalRoadClassFromTag value = .UNKNOWN ∧
      (functionalRoadClassFromTagLogged value).2 =
        ["Unknown road class encountered: " ++ value] := by
  have hnone : hashFind class_hash value = none := by
    apply hashFind_eq_none
    rw [class_hash_eq]
    exact h
  simp [functionalRoadClassFromTag, functionalRoadClassFromTagLogged, hnone]

/-- C1, at the tag value `footway`. -/
theorem functionalRoadClassFromTag_unknown_witness :
    "footway" ∉ recognisedTags ∧
      functionalRoadClassFromTag "footway" = .UNKNOWN ∧
      (functionalRoadClassFromTagLogged "footway").2 =
        ["Unknown road class encountered: " ++ "footway"] :=
  ⟨by decide, functionalRoadClassFromTag_unknown "footway" (by decide)⟩

/-- C2: `isRampClass` holds exactly for `MOTORWAY_LINK` and `TRUNK_LINK`; the links of
    primary, secondary and tertiary roads are no ramps. -/
theorem isRampClass_iff :
    (∀ c : FunctionalRoadClass,
      isRampClass c = true ↔ (c = .MOTORWAY_LINK ∨ c = .TRUNK_LINK)) ∧
    isRampClass .PRIMARY_LINK = false ∧
    isRampClass .SECONDARY_LINK = false ∧
    isRampClass .TERTIARY_LINK = false := by
  refine ⟨?_, rfl, rfl, rfl⟩
  intro c
  cases c <;> simp [isRampClass]

/-- C5: each of the fourteen class names is mapped to the class of that name, and
    `track`, `road`, `path` and `driveway` are mapped to `LOW_PRIORITY_ROAD`. -/
theorem functionalRoadClassFromTag_recognised :
    functionalRoadClassFromTag "motorway" = .MOTORWAY ∧
    functionalRoadClassFromTag "motorway_link" = .MOTORWAY_LINK ∧
    functionalRoadClassFromTag "trunk" = .TRUNK ∧
    functionalRoadClassFromTag "trunk_link" = .TRUNK_LINK ∧
    functionalRoadClassFromTag "primary" = .PRIMARY ∧
    functionalRoadClassFromTag "primary_link" = .PRIMARY_LINK ∧
    functionalRoadClassFromTag "secondary" = .SECONDARY ∧
    functionalRoadClassFromTag "secondary_link" = .SECONDARY_LINK ∧
    functionalRoadClassFromTag "tertiary" = .TERTIARY ∧
    functionalRoadClassFromTag "tertiary_link" = .TERTIARY_LINK ∧
    functionalRoadClassFromTag "unclassified" = .UNCLASSIFIED ∧
    functionalRoadClassFromTag "residential" = .RESIDENTIAL ∧
    functionalRoadClassFromTag "service" = .SERVICE ∧
    functionalRoadClassFromTag "living_street" = .LIVING_STREET ∧
    functionalRoadClassFromTag "track" = .LOW_PRIORITY_ROAD ∧
    functionalRoadClassFromTag "road" = .LOW_PRIORITY_ROAD ∧
    functionalRoadClassFromTag "path" = .LOW_PRIORITY_ROAD ∧
    functionalRoadClassFromTag "driveway" = .LOW_PRIORITY_ROAD := by
  decide

/-- C6: the class derived from a tag value is a ramp class exactly when the value is
    `motorway_link` or `trunk_link`; in particular an unknown value is never a ramp. -/
theorem isRampClass_fromTag_iff (s : String) :
    isRampClass (functionalRoadClassFromTag s) = true ↔
      (s = "motorway_link" ∨ s = "trunk_link") := by
  constructor
  · intro h
    unfold functionalRoadClassFromTag functionalRoadClassFromTagLogged at h
    cases hf : hashFind class_hash s with
    | none =>
      rw [hf] at h
      simp [isRampClass] at h
    | some c =>
      rw [hf] at h
      have hmem := hashFind_mem class_hash s c hf
      rw [class_hash_eq] at hmem
      simp only [classHashAssignments, List.mem_cons, Prod.mk.injEq, List.mem_nil_iff,
        or_false] at hmem
      rcases hmem with hm | hm | hm | hm | hm | hm | hm | hm | hm | hm | hm | hm | hm | hm |
        hm | hm | hm | hm <;> obtain ⟨hs, hc⟩ := hm <;> subst hc <;>
        first
          | (left; exact hs)
          | (right; exact hs)
          | (simp [isRampClass] at h)
  · rintro (h | h) <;> subst h <;> decide

/-! ## Properties of `instructionToString` -/

/-- C3: in both files, an internal-only instruction leaves the token empty and reaches
    the assertion `Invalid turn type used`, and every other instruction returns a
    non-empty token and reaches no assertion. -/
theorem instructionToString_internalOnly (i : TurnInstruction) :
    (i ∈ internalOnly →
      JsonFactory.instructionToString i =
          { token := "", assertion := some "Invalid turn type used" } ∧
        JosnFactory.instructionToString i =
          { token := "", assertion := some "Invalid turn type used" }) ∧
    (i ∉ internalOnly →
      (JsonFactory.instructionToString i).token ≠ "" ∧
        (JsonFactory.instructionToString i).assertion = none ∧
        (JosnFactory.instructionToString i).token ≠ "" ∧
        (JosnFactory.instructionToString i).assertion = none) := by
  cases i <;> decide

/-- C7: `StartAtEndOfStreet` is rendered as `depart` and `ReachedYourDestination` as
    `arrive`, in both files and without reaching an assertion. -/
theorem instructionToString_depart_arrive :
    JsonFactory.instructionToString .StartAtEndOfStreet =
        { token := "depart", assertion := none } ∧
    JsonFactory.instructionToString .ReachedYourDestination =
        { token := "arrive", assertion := none } ∧
    JosnFactory.instructionToString .StartAtEndOfStreet =
        { token := "depart", assertion := none } ∧
    JosnFactory.instructionToString .ReachedYourDestination =
        { token := "arrive", assertion := none } := by
  decide

/-! ## Properties of `RoadClassificationData::augment` -/

/-- C4, the second half: on a way without a `feature_id` tag `augment` completes, and
    an unrecognised `highway` value sets `road_class` to `UNKNOWN`. -/
theorem augment_unknown_highway (self : RoadClassificationData) (way : Way)
    (value : String) (hway : get_value_by_key way "highway" = some value)
    (hvalue : value ∉ recognisedTags)
    (hfeature : get_value_by_key way "feature_id" = none) :
    self.augment way = .ok { self with road_class := .UNKNOWN } := by
  have hclass : functionalRoadClassFromTag value = .UNKNOWN := by
    have hnone : hashFind class_hash value = none := by
      apply hashFind_eq_none
      rw [class_hash_eq]
      exact hvalue
    simp [functionalRoadClassFromTag, functionalRoadClassFromTagLogged, hnone]
  simp [RoadClassificationData.augment, hway, hfeature, hclass]

/-- C4: on a way that carries the tag `feature_id=abc`, `augment` does not complete:
    `std::stoi` throws `std::invalid_argument`, and a value beyond the range of `int`
    makes it throw `std::out_of_range`. -/
theorem augment_feature_id_throws :
    ({} : RoadClassificationData).augment [("highway", "footway"), ("feature_id", "abc")]
        = .error .invalid_argument ∧
    ({} : RoadClassificationData).augment [("feature_id", "")]
        = .error .invalid_argument ∧
    ({} : RoadClassificationData).augment [("feature_id", "4294967296")]
        = .error .out_of_range :=
  ⟨rfl, rfl, rfl⟩

/-! ## Properties of the segregated-road merger -/

/-- Taking a partner out of a list shortens it by one. -/
theorem takePartner_length (t : Thresholds) (g : NodeBasedDynamicGraph) (c : TurnCandidate)
    (l : List TurnCandidate) (partner : TurnCandidate) (rest : List TurnCandidate)
    (h : takePartner t g c l = some (partner, rest)) : rest.length + 1 = l.length := by
  induction l generalizing partner rest with
  | nil => simp [takePartner] at h
  | cons d tail ih =>
    unfold takePartner at h
    split at h
    · simp only [Option.some.injEq, Prod.mk.injEq] at h
      rw [← h.2]
      rfl
    · cases hp : takePartner t g c tail with
      | none => simp [hp] at h
      | some pr =>
        obtain ⟨p1, r1⟩ := pr
        simp only [hp, Option.some.injEq, Prod.mk.injEq] at h
        have := ih p1 r1 hp
        rw [← h.2]
        simp only [List.length_cons]
        omega

/-- One merge shortens the candidate list by one. -/
theorem mergeStep_length (t : Thresholds) (g : NodeBasedDynamicGraph)
    (l merged : List TurnCandidate) (h : mergeStep t g l = some merged) :
    merged.length + 1 = l.length := by
  induction l generalizing merged with
  | nil => simp [mergeStep] at h
  | cons c tail ih =>
    unfold mergeStep at h
    cases hp : takePartner t g c tail with
    | some pr =>
      obtain ⟨p1, r1⟩ := pr
      simp only [hp, Option.some.injEq] at h
      have := takePartner_length t g c tail p1 r1 hp
      rw [← h]
      simp only [List.length_cons]
      omega
    | none =>
      simp only [hp] at h
      cases hs : mergeStep t g tail with
      | none => simp [hs] at h
      | some r1 =>
        simp only [hs, Option.some.injEq] at h
        have := ih r1 hs
        rw [← h]
        simp only [List.length_cons]
        omega

/-- With at least as much fuel as candidates, the loop ends on a list in which no pair
    is detected. -/
theorem mergeLoop_settled (t : Thresholds) (g : NodeBasedDynamicGraph) (fuel : Nat)
    (l : List TurnCandidate) (h : l.length ≤ fuel) :
    mergeStep t g (mergeLoop t g fuel l) = none := by
  induction fuel generalizing l with
  | zero =>
    have hl : l = [] := List.length_eq_zero.mp (Nat.le_zero.mp h)
    subst hl
    rfl
  | succ n ih =>
    unfold mergeLoop
    cases hs : mergeStep t g l with
    | none => simpa using hs
    | some merged =>
      have hlen := mergeStep_length t g l merged hs
      simp only
      exact ih merged (by omega)

/-- On a list in which no pair is detected the loop changes nothing. -/
theorem mergeLoop_of_settled (t : Thresholds) (g : NodeBasedDynamicGraph) (fuel : Nat)
    (l : List TurnCandidate) (h : mergeStep t g l = none) : mergeLoop t g fuel l = l := by
  cases fuel with
  | zero => rfl
  | succ n => simp [mergeLoop, h]

/-- C9: `mergeSegregatedRoads` is idempotent: applied to a list it has already merged,
    with the same `from_node`, `via_eid` and graph, it returns that list. -/
theorem mergeSegregatedRoads_idempotent (t : Thresholds) (from_node : NodeID)
    (via_eid : EdgeID) (turn_candidates : List TurnCandidate)
    (node_based_graph : NodeBasedDynamicGraph) :
    mergeSegregatedRoads t from_node via_eid
        (mergeSegregatedRoads t from_node via_eid turn_candidates node_based_graph)
        node_based_graph =
      mergeSegregatedRoads t from_node via_eid turn_candidates node_based_graph := by
  unfold mergeSegregatedRoads
  exact mergeLoop_of_settled t node_based_graph _ _
    (mergeLoop_settled t node_based_graph _ _ (Nat.le_refl _))

/-! ## Properties of the obviousness suppressor -/

/-- Suppression of one candidate changes its instruction at most. -/
theorem suppressCandidate_frame (obvious : Bool) (c : TurnCandidate) :
    (suppressCandidate obvious c).eid = c.eid ∧
    (suppressCandidate obvious c).valid = c.valid ∧
    (suppressCandidate obvious c).angle = c.angle ∧
    (suppressCandidate obvious c).confidence = c.confidence := by
  unfold suppressCandidate
  split <;> exact ⟨rfl, rfl, rfl, rfl⟩

/-- Suppression from any position on keeps whatever is read off the members other than
    the instruction. -/
theorem suppressFrom_frame {β : Type} (f : TurnCandidate → β)
    (hf : ∀ (obvious : Bool) (c : TurnCandidate), f (suppressCandidate obvious c) = f c)
    (t : Thresholds) (via_eid : EdgeID) (g : NodeBasedDynamicGraph)
    (all : List TurnCandidate) (index : Nat) (l : List TurnCandidate) :
    (suppressFrom t via_eid g all index l).map f = l.map f := by
  induction l generalizing index with
  | nil => rfl
  | cons c rest ih =>
    simp only [suppressFrom, List.map_cons, hf, ih]

/-- C10: `suppressTurns` returns the same candidates in the same positions, each with
    its `valid` and `angle` (and its edge and confidence) as in the input; only the
    instruction may differ. -/
theorem suppressTurns_frame (t : Thresholds) (via_eid : EdgeID)
    (turn_candidates : List TurnCandidate) (node_based_graph : NodeBasedDynamicGraph) :
    (suppressTurns t via_eid turn_candidates node_based_graph).length
        = turn_candidates.length ∧
    (suppressTurns t via_eid turn_candidates node_based_graph).map (fun c => c.valid)
        = turn_candidates.map (fun c => c.valid) ∧
    (suppressTurns t via_eid turn_candidates node_based_graph).map (fun c => c.angle)
        = turn_candidates.map (fun c => c.angle) ∧
    (suppressTurns t via_eid turn_candidates node_based_graph).map (fun c => c.eid)
        = turn_candidates.map (fun c => c.eid) ∧
    (suppressTurns t via_eid turn_candidates node_based_graph).map (fun c => c.confidence)
        = turn_candidates.map (fun c => c.confidence) := by
  have hvalid := suppressFrom_frame (fun c => c.valid)
    (fun o c => (suppressCandidate_frame o c).2.1) t via_eid node_based_graph
    turn_candidates 0 turn_candidates
  have hangle := suppressFrom_frame (fun c => c.angle)
    (fun o c => (suppressCandidate_frame o c).2.2.1) t via_eid node_based_graph
    turn_candidates 0 turn_candidates
  have heid := suppressFrom_frame (fun c => c.eid)
    (fun o c => (suppressCandidate_frame o c).1) t via_eid node_based_graph
    turn_candidates 0 turn_candidates
  have hconf := suppressFrom_frame (fun c => c.confidence)
    (fun o c => (suppressCandidate_frame o c).2.2.2) t via_eid node_based_graph
    turn_candidates 0 turn_candidates
  refine ⟨?_, hvalid, hangle, heid, hconf⟩
  have := congrArg List.length hvalid
  simpa [suppressTurns] using this

/-! ## The modelled stages on the example junction -/

/-- The merger collapses the two carriageways into the valid one and keeps the side
    road. -/
theorem mergeSegregatedRoads_example :
    mergeSegregatedRoads exampleThresholds 0 0
        [sideRoad, carriagewayAhead, carriagewayBack] exampleGraph =
      [sideRoad, carriagewayAhead] := by
  have h12 : isSegregatedPair exampleThresholds exampleGraph carriagewayAhead
      carriagewayBack = true := by
    simp [isSegregatedPair, angularDeviation, exampleThresholds, exampleGraph,
      carriagewayAhead, carriagewayBack]
    norm_num
  have h41 : isSegregatedPair exampleThresholds exampleGraph sideRoad
      carriagewayAhead = false := by
    simp [isSegregatedPair, exampleGraph, sideRoad, carriagewayAhead]
  have h42 : isSegregatedPair exampleThresholds exampleGraph sideRoad
      carriagewayBack = false := by
    simp [isSegregatedPair, exampleGraph, sideRoad, carriagewayBack]
  have hm : mergeCandidates carriagewayAhead carriagewayBack = carriagewayAhead := by
    simp [mergeCandidates, carriagewayAhead, carriagewayBack]
  simp [mergeSegregatedRoads, mergeLoop, mergeStep, takePartner, h12, h41, h42, hm]

/-- Arriving on edge 1, the suppressor downgrades the continuation on edge 1, the only
    valid continuation of that name, to `NoTurn` and leaves the other candidates. -/
theorem suppressTurns_example :
    suppressTurns exampleThresholds 1 [sideRoad, carriagewayAhead, carriagewayBack]
        exampleGraph =
      [sideRoad, { carriagewayAhead with instruction := ⟨.NoTurn, .Straight⟩ },
        carriagewayBack] := by
  simp [suppressTurns, suppressFrom, suppressCandidate, isObviousChoice, continuesName,
    isRampClass, angularDeviation, exampleThresholds, exampleGraph, sideRoad,
    carriagewayAhead, carriagewayBack]
  intro h
  norm_num at h

/-! ## The order of the road classes -/

/-- C14: the numbers of the enumerators follow the road hierarchy, from `MOTORWAY` to
    `LOW_PRIORITY_ROAD`; `UNKNOWN` is 0 and lies below every recognised class, of which
    `MOTORWAY` is the least and `LOW_PRIORITY_ROAD` the greatest. -/
theorem FunctionalRoadClass_order :
    (FunctionalRoadClass.MOTORWAY.toShort < FunctionalRoadClass.MOTORWAY_LINK.toShort ∧
      FunctionalRoadClass.MOTORWAY_LINK.toShort < FunctionalRoadClass.TRUNK.toShort ∧
      FunctionalRoadClass.TRUNK.toShort < FunctionalRoadClass.TRUNK_LINK.toShort ∧
      FunctionalRoadClass.TRUNK_LINK.toShort < FunctionalRoadClass.PRIMARY.toShort ∧
      FunctionalRoadClass.PRIMARY.toShort < FunctionalRoadClass.PRIMARY_LINK.toShort ∧
      FunctionalRoadClass.PRIMARY_LINK.toShort < FunctionalRoadClass.SECONDARY.toShort ∧
      FunctionalRoadClass.SECONDARY.toShort < FunctionalRoadClass.SECONDARY_LINK.toShort ∧
      FunctionalRoadClass.SECONDARY_LINK.toShort < FunctionalRoadClass.TERTIARY.toShort ∧
      FunctionalRoadClass.TERTIARY.toShort < FunctionalRoadClass.TERTIARY_LINK.toShort ∧
      FunctionalRoadClass.TERTIARY_LINK.toShort < FunctionalRoadClass.UNCLASSIFIED.toShort ∧
      FunctionalRoadClass.UNCLASSIFIED.toShort < FunctionalRoadClass.RESIDENTIAL.toShort ∧
      FunctionalRoadClass.RESIDENTIAL.toShort < FunctionalRoadClass.SERVICE.toShort ∧
      FunctionalRoadClass.SERVICE.toShort < FunctionalRoadClass.LIVING_STREET.toShort ∧
      FunctionalRoadClass.LIVING_STREET.toShort <
        FunctionalRoadClass.LOW_PRIORITY_ROAD.toShort) ∧
    FunctionalRoadClass.UNKNOWN.toShort = 0 ∧
    (∀ c : FunctionalRoadClass, c ≠ .UNKNOWN →
      FunctionalRoadClass.UNKNOWN.toShort < c.toShort ∧
      FunctionalRoadClass.MOTORWAY.toShort ≤ c.toShort ∧
      c.toShort ≤ FunctionalRoadClass.LOW_PRIORITY_ROAD.toShort) := by
  refine ⟨by decide, rfl, ?_⟩
  intro c hc
  cases c <;> first | exact absurd rfl hc | decide

/-! ## Equality of `RoadClassificationData` -/

/-- C20: `operator==` holds exactly when the two `road_class` members are equal,
    whatever the two `feature_id` members are, and it is reflexive, symmetric and
    transitive. -/
theorem operatorEq_road_class_only :
    (∀ x y : RoadClassificationData, x.operatorEq y = true ↔ x.road_class = y.road_class) ∧
    (∀ (c : FunctionalRoadClass) (f g : Nat),
      RoadClassificationData.operatorEq { road_class := c, feature_id := f }
        { road_class := c, feature_id := g } = true) ∧
    (∀ x : RoadClassificationData, x.operatorEq x = true) ∧
    (∀ x y : RoadClassificationData, x.operatorEq y = true → y.operatorEq x = true) ∧
    (∀ x y z : RoadClassificationData,
      x.operatorEq y = true → y.operatorEq z = true → x.operatorEq z = true) := by
  have hiff : ∀ x y : RoadClassificationData,
      x.operatorEq y = true ↔ x.road_class = y.road_class := by
    intro x y
    simp [RoadClassificationData.operatorEq]
  refine ⟨hiff, ?_, ?_, ?_, ?_⟩
  · intro c f g
    exact (hiff _ _).mpr rfl
  · intro x
    exact (hiff x x).mpr rfl
  · intro x y h
    exact (hiff y x).mpr ((hiff x y).mp h).symm
  · intro x y z hxy hyz
    exact (hiff x z).mpr (((hiff x y).mp hxy).trans ((hiff y z).mp hyz))

/-! ## Properties of `RectangleInt2D` -/

namespace RectangleInt2D

/-- Containment, spelled out on the four bounds. -/
theorem Contains_iff (self : RectangleInt2D) (location : Coordinate) :
    self.Contains location = true ↔
      (self.min_lon ≤ location.lon ∧ location.lon ≤ self.max_lon) ∧
      (self.min_lat ≤ location.lat ∧ location.lat ≤ self.max_lat) := by
  simp [Contains]

/-- C16, the direction that holds: when `Intersects` answers yes, a corner of `other`
    lies in both rectangles. -/
theorem Intersects_shares_point (self other : RectangleInt2D) (hother : other.WellFormed)
    (h : self.Intersects other = true) :
    ∃ location : Coordinate,
      self.Contains location = true ∧ other.Contains location = true := by
  obtain ⟨hlon, hlat⟩ := hother
  simp only [Intersects, Bool.or_eq_true] at h
  rcases h with ((h | h) | h) | h
  · exact ⟨_, h, (Contains_iff _ _).mpr ⟨⟨le_refl _, hlon⟩, ⟨hlat, le_refl _⟩⟩⟩
  · exact ⟨_, h, (Contains_iff _ _).mpr ⟨⟨hlon, le_refl _⟩, ⟨hlat, le_refl _⟩⟩⟩
  · exact ⟨_, h, (Contains_iff _ _).mpr ⟨⟨hlon, le_refl _⟩, ⟨le_refl _, hlat⟩⟩⟩
  · exact ⟨_, h, (Contains_iff _ _).mpr ⟨⟨le_refl _, hlon⟩, ⟨le_refl _, hlat⟩⟩⟩

/-- C16: two well-formed rectangles that share the point (1, 1), the second enclosing
    the first, for which `Intersects` answers no, although it answers yes with the
    roles exchanged; and two rectangles that cross, sharing the point (5, 5), for which
    `Intersects` answers no in either order. -/
theorem Intersects_misses_shared_point :
    ((⟨1, 2, 1, 2⟩ : RectangleInt2D).WellFormed ∧
      (⟨0, 3, 0, 3⟩ : RectangleInt2D).WellFormed ∧
      (⟨1, 2, 1, 2⟩ : RectangleInt2D).Contains ⟨1, 1⟩ = true ∧
      (⟨0, 3, 0, 3⟩ : RectangleInt2D).Contains ⟨1, 1⟩ = true ∧
      (⟨1, 2, 1, 2⟩ : RectangleInt2D).Intersects ⟨0, 3, 0, 3⟩ = false ∧
      (⟨0, 3, 0, 3⟩ : RectangleInt2D).Intersects ⟨1, 2, 1, 2⟩ = true) ∧
    ((⟨0, 10, 4, 6⟩ : RectangleInt2D).WellFormed ∧
      (⟨4, 6, 0, 10⟩ : RectangleInt2D).WellFormed ∧
      (⟨0, 10, 4, 6⟩ : RectangleInt2D).Contains ⟨5, 5⟩ = true ∧
      (⟨4, 6, 0, 10⟩ : RectangleInt2D).Contains ⟨5, 5⟩ = true ∧
      (⟨0, 10, 4, 6⟩ : RectangleInt2D).Intersects ⟨4, 6, 0, 10⟩ = false ∧
      (⟨4, 6, 0, 10⟩ : RectangleInt2D).Intersects ⟨0, 10, 4, 6⟩ = false) := by
  decide

/-- C17: after `a.MergeBoundingBoxes(b)` each bound of `a` is the minimum, respectively
    the maximum, of the two inputs; the new `a` contains whatever the old `a` or `b`
    contained and lies within every rectangle that covers two well-formed inputs; the
    result does not depend on the order of the two, merging the same rectangle again
    changes nothing, and merging `b` into the default-constructed rectangle gives `b`. -/
theorem MergeBoundingBoxes_spec (a b : RectangleInt2D) :
    ((a.MergeBoundingBoxes b).min_lon = min a.min_lon b.min_lon ∧
      (a.MergeBoundingBoxes b).max_lon = max a.max_lon b.max_lon ∧
      (a.MergeBoundingBoxes b).min_lat = min a.min_lat b.min_lat ∧
      (a.MergeBoundingBoxes b).max_lat = max a.max_lat b.max_lat) ∧
    (∀ location : Coordinate,
      a.Contains location = true ∨ b.Contains location = true →
        (a.MergeBoundingBoxes b).Contains location = true) ∧
    (∀ r : RectangleInt2D, a.WellFormed → b.WellFormed →
      (∀ location : Coordinate,
        a.Contains location = true ∨ b.Contains location = true →
          r.Contains location = true) →
      ∀ location : Coordinate,
        (a.MergeBoundingBoxes b).Contains location = true → r.Contains location = true) ∧
    a.MergeBoundingBoxes b = b.MergeBoundingBoxes a ∧
    (a.MergeBoundingBoxes b).MergeBoundingBoxes b = a.MergeBoundingBoxes b ∧
    a.MergeBoundingBoxes a = a ∧
    (b.InRange → defaultConstructed.MergeBoundingBoxes b = b) := by
  refine ⟨⟨rfl, rfl, rfl, rfl⟩, ?_, ?_, ?_, ?_, ?_, ?_⟩
  · intro location h
    simp only [Contains_iff] at h
    simp only [Contains_iff, MergeBoundingBoxes, min_le_iff, le_max_iff]
    rcases h with h | h
    · exact ⟨⟨Or.inl h.1.1, Or.inl h.1.2⟩, ⟨Or.inl h.2.1, Or.inl h.2.2⟩⟩
    · exact ⟨⟨Or.inr h.1.1, Or.inr h.1.2⟩, ⟨Or.inr h.2.1, Or.inr h.2.2⟩⟩
  · intro r ha hb hcover location h
    obtain ⟨halon, halat⟩ := ha
    obtain ⟨hblon, hblat⟩ := hb
    have c1 := (Contains_iff r _).mp
      (hcover ⟨a.min_lon, a.min_lat⟩
        (Or.inl ((Contains_iff _ _).mpr ⟨⟨le_refl _, halon⟩, ⟨le_refl _, halat⟩⟩)))
    have c2 := (Contains_iff r _).mp
      (hcover ⟨a.max_lon, a.max_lat⟩
        (Or.inl ((Contains_iff _ _).mpr ⟨⟨halon, le_refl _⟩, ⟨halat, le_refl _⟩⟩)))
    have c3 := (Contains_iff r _).mp
      (hcover ⟨b.min_lon, b.min_lat⟩
        (Or.inr ((Contains_iff _ _).mpr ⟨⟨le_refl _, hblon⟩, ⟨le_refl _, hblat⟩⟩)))
    have c4 := (Contains_iff r _).mp
      (hcover ⟨b.max_lon, b.max_lat⟩
        (Or.inr ((Contains_iff _ _).mpr ⟨⟨hblon, le_refl _⟩, ⟨hblat, le_refl _⟩⟩)))
    simp only [Contains_iff, MergeBoundingBoxes, min_le_iff, le_max_iff] at h
    simp only at c1 c2 c3 c4
    rw [Contains_iff]
    refine ⟨⟨?_, ?_⟩, ⟨?_, ?_⟩⟩
    · rcases h.1.1 with h1 | h1
      · exact le_trans c1.1.1 h1
      · exact le_trans c3.1.1 h1
    · rcases h.1.2 with h1 | h1
      · exact le_trans h1 c2.1.2
      · exact le_trans h1 c4.1.2
    · rcases h.2.1 with h1 | h1
      · exact le_trans c1.2.1 h1
      · exact le_trans c3.2.1 h1
    · rcases h.2.2 with h1 | h1
      · exact le_trans h1 c2.2.2
      · exact le_trans h1 c4.2.2
  · simp only [MergeBoundingBoxes, min_comm, max_comm]
  · simp only [MergeBoundingBoxes, min_assoc, max_assoc, min_self, max_self]
  · simp only [MergeBoundingBoxes, min_self, max_self]
  · intro hb
    obtain ⟨⟨_, h1⟩, ⟨h2, _⟩, ⟨_, h3⟩, ⟨h4, _⟩⟩ := hb
    simp only [MergeBoundingBoxes, defaultConstructed, min_eq_right h1, max_eq_right h2,
      min_eq_right h3, max_eq_right h4]

/-- The eight direction codes that have a `case` in the `switch` of `GetMinDist`. -/
theorem GetMinDist_direction_mem (self : RectangleInt2D) (location : Coordinate)
    (h : self.Contains location = false) :
    self.GetMinDist_direction location ∈
      [Direction.NORTH, Direction.SOUTH, Direction.EAST, Direction.WEST,
        Direction.NORTH_EAST, Direction.NORTH_WEST, Direction.SOUTH_EAST,
        Direction.SOUTH_WEST] := by
  have hnot : ¬ ((self.min_lon ≤ location.lon ∧ location.lon ≤ self.max_lon) ∧
      (self.min_lat ≤ location.lat ∧ location.lat ≤ self.max_lat)) := by
    intro hc
    rw [(Contains_iff self location).mpr hc] at h
    exact Bool.noConfusion h
  unfold GetMinDist_direction
  by_cases h1 : location.lat > self.max_lat <;>
    by_cases h2 : location.lat < self.min_lat <;>
    by_cases h3 : location.lon > self.max_lon <;>
    by_cases h4 : location.lon < self.min_lon <;>
    simp only [h1, h2, h3, h4, if_true, if_false] <;>
    first
      | decide
      | (exfalso; apply hnot; omega)

end RectangleInt2D

namespace RectangleInt2D

/-- C18: for a location the rectangle does not contain, the direction code is one of
    the eight named directions, the assertion `d != INVALID` holds and the `switch`
    does not take its `default` branch; for a contained location the result is 0. -/
theorem GetMinDist_direction_valid (greatCircleDistance : Coordinate → Coordinate → ℚ)
    (DBL_MAX : ℚ) (self : RectangleInt2D) (location : Coordinate) :
    (self.Contains location = false →
      (self.GetMinDist greatCircleDistance DBL_MAX location).d ∈
          [Direction.NORTH, Direction.SOUTH, Direction.EAST, Direction.WEST,
            Direction.NORTH_EAST, Direction.NORTH_WEST, Direction.SOUTH_EAST,
            Direction.SOUTH_WEST] ∧
        (self.GetMinDist greatCircleDistance DBL_MAX location).direction_assertion = true ∧
        (self.GetMinDist greatCircleDistance DBL_MAX location).default_branch = false) ∧
    (self.Contains location = true →
      (self.GetMinDist greatCircleDistance DBL_MAX location).min_dist = 0) := by
  constructor
  · intro h
    have hmem := GetMinDist_direction_mem self location h
    simp only [GetMinDist, h, Bool.false_eq_true, if_false]
    refine ⟨hmem, ?_, ?_⟩
    · simp only [List.mem_cons, List.mem_nil_iff, or_false] at hmem
      rcases hmem with e | e | e | e | e | e | e | e <;> rw [e] <;> decide
    · simp only [List.mem_cons, List.mem_nil_iff, or_false] at hmem
      rcases hmem with e | e | e | e | e | e | e | e <;> rw [e] <;> rfl
  · intro h
    simp only [GetMinDist, h, if_true]

/-- Halving the sum of two ordered integers with truncation stays between them. -/
theorem tdiv_two_between (lo hi : Int) (h : lo ≤ hi) :
    lo ≤ Int.tdiv (lo + hi) 2 ∧ Int.tdiv (lo + hi) 2 ≤ hi := by
  by_cases hs : 0 ≤ lo + hi
  · rw [Int.tdiv_eq_ediv hs (by decide)]
    omega
  · have hneg : lo + hi = -(-(lo + hi)) := by omega
    rw [hneg, Int.neg_tdiv, Int.tdiv_eq_ediv (by omega) (by decide)]
    omega

/-- A sum within the range of `int32_t` is not changed by wrapping. -/
theorem wrapInt32_of_inRange (x : Int) (h : INT32_MIN ≤ x ∧ x ≤ INT32_MAX) :
    wrapInt32 x = x := by
  unfold INT32_MIN INT32_MAX at h
  unfold wrapInt32
  norm_num at h ⊢
  omega

/-- C19: when `min_lon <= max_lon` and `min_lat <= max_lat` and neither sum of two
    bounds overflows 32-bit arithmetic, the rectangle contains its `Centroid()`. -/
theorem Centroid_contained (self : RectangleInt2D) (hwf : self.WellFormed)
    (hlon : INT32_MIN ≤ self.min_lon + self.max_lon ∧
      self.min_lon + self.max_lon ≤ INT32_MAX)
    (hlat : INT32_MIN ≤ self.min_lat + self.max_lat ∧
      self.min_lat + self.max_lat ≤ INT32_MAX) :
    self.Contains self.Centroid = true := by
  rw [Contains_iff]
  simp only [Centroid, wrapInt32_of_inRange _ hlon, wrapInt32_of_inRange _ hlat]
  exact ⟨tdiv_two_between _ _ hwf.1, tdiv_two_between _ _ hwf.2⟩

/-- C19, at the rectangle with longitudes from -3 to -2 and latitudes from -7 to 4, whose
    centroid (-2, -1) shows the truncation towards zero. -/
theorem Centroid_contained_witness :
    (⟨-3, -2, -7, 4⟩ : RectangleInt2D).Centroid = ⟨-2, -1⟩ ∧
    (⟨-3, -2, -7, 4⟩ : RectangleInt2D).Contains
      (⟨-3, -2, -7, 4⟩ : RectangleInt2D).Centroid = true :=
  ⟨by decide, Centroid_contained ⟨-3, -2, -7, 4⟩ (by decide) (by decide) (by decide)⟩

/-- Within the world bounds no sum of two bounds overflows, as long as 360 times the
    coordinate precision is a value of `int32_t`. -/
theorem WithinWorld_sums (COORDINATE_PRECISION : Int) (self : RectangleInt2D)
    (hprecision : 0 ≤ COORDINATE_PRECISION ∧ 360 * COORDINATE_PRECISION ≤ INT32_MAX)
    (hwf : self.WellFormed) (hworld : self.WithinWorld COORDINATE_PRECISION) :
    (INT32_MIN ≤ self.min_lon + self.max_lon ∧
      self.min_lon + self.max_lon ≤ INT32_MAX) ∧
    (INT32_MIN ≤ self.min_lat + self.max_lat ∧
      self.min_lat + self.max_lat ≤ INT32_MAX) := by
  obtain ⟨hp0, hp⟩ := hprecision
  obtain ⟨hw1, hw2⟩ := hwf
  obtain ⟨⟨h1, h2⟩, ⟨h3, h4⟩⟩ := hworld
  unfold WORLD_MIN_LON at h1
  unfold WORLD_MAX_LON at h2
  unfold WORLD_MIN_LAT at h3
  unfold WORLD_MAX_LAT at h4
  unfold INT32_MAX at hp
  unfold INT32_MIN INT32_MAX
  norm_num at hp ⊢
  omega

end RectangleInt2D

/-! ## Properties of the roundabout handler and of `turnOrRamp` -/

/-- On the roundabout the policy assigns `EnterRoundabout` to no candidate: a candidate
    that carries it afterwards is an untouched input candidate. -/
theorem roundaboutCandidate_enter (g : NodeBasedDynamicGraph) (c : TurnCandidate)
    (h : (roundaboutCandidate true g c).instruction.type = .EnterRoundabout) :
    roundaboutCandidate true g c = c := by
  unfold roundaboutCandidate at h ⊢
  simp only [if_true] at h ⊢
  split at h
  · simp [TurnCandidate.withType] at h
  · split at h
    · simp [TurnCandidate.withType] at h
    · rename_i h1 h2
      simp only [h1, h2, if_false]
      rfl

/-- C11: with `on_roundabout = true` and no valid candidate that leaves the ring,
    `handleRoundabouts` keeps the positions of the candidates, gives every valid
    continuation `StayOnRoundabout` and gives `EnterRoundabout` to none: a candidate
    that carries it in the result is an input candidate passed through unchanged. -/
theorem handleRoundabouts_stay (from_node : NodeID) (via_edge : EdgeID)
    (can_enter_roundabout can_exit_roundabout : Bool)
    (turn_candidates : List TurnCandidate) (node_based_graph : NodeBasedDynamicGraph)
    (hexit : ∀ c ∈ turn_candidates, c.valid = true →
      (node_based_graph.GetEdgeData c.eid).roundabout = true) :
    (handleRoundabouts from_node via_edge true can_enter_roundabout can_exit_roundabout
        turn_candidates node_based_graph).length = turn_candidates.length ∧
    (∀ (i : Nat) (c : TurnCandidate), turn_candidates[i]? = some c → c.valid = true →
      ((handleRoundabouts from_node via_edge true can_enter_roundabout can_exit_roundabout
          turn_candidates node_based_graph)[i]?).map (fun r => r.instruction.type)
        = some .StayOnRoundabout) ∧
    (∀ r ∈ handleRoundabouts from_node via_edge true can_enter_roundabout
        can_exit_roundabout turn_candidates node_based_graph,
      r.instruction.type = .EnterRoundabout → r ∈ turn_candidates) := by
  refine ⟨?_, ?_, ?_⟩
  · simp [handleRoundabouts]
  · intro i c hi hvalid
    have hmem : c ∈ turn_candidates := List.getElem?_mem hi
    have hring := hexit c hmem hvalid
    simp [handleRoundabouts, List.getElem?_map, hi, roundaboutCandidate, hring,
      TurnCandidate.withType]
  · intro r hr htype
    simp only [handleRoundabouts, List.mem_map] at hr
    obtain ⟨c, hc, rfl⟩ := hr
    rw [roundaboutCandidate_enter node_based_graph c htype]
    exact hc

/-- C12: when exactly one of the outgoing and the incoming edge has a ramp class,
    `turnOrRamp` returns `Ramp`, which is not `Turn`. -/
theorem turnOrRamp_ramp (from_node : NodeID) (via_edge : EdgeID) (candidate : TurnCandidate)
    (node_based_graph : NodeBasedDynamicGraph)
    (h : (isRampClass (node_based_graph.GetEdgeData candidate.eid).road_class = true ∧
          isRampClass (node_based_graph.GetEdgeData via_edge).road_class = false) ∨
        (isRampClass (node_based_graph.GetEdgeData candidate.eid).road_class = false ∧
          isRampClass (node_based_graph.GetEdgeData via_edge).road_class = true)) :
    turnOrRamp from_node via_edge candidate node_based_graph = .Ramp ∧
    turnOrRamp from_node via_edge candidate node_based_graph ≠ .Turn := by
  have hramp : turnOrRamp from_node via_edge candidate node_based_graph = .Ramp := by
    rcases h with ⟨h1, h2⟩ | ⟨h1, h2⟩ <;> simp [turnOrRamp, h1, h2]
  rw [hramp]
  exact ⟨rfl, by decide⟩

/-- C11, on the example roundabout: arriving on edge 1 with the continuation on the
    ring valid and the side road closed. -/
theorem handleRoundabouts_stay_witness :
    (∀ c ∈ [ringAhead, closedExit], c.valid = true →
      (exampleRing.GetEdgeData c.eid).roundabout = true) ∧
    ((handleRoundabouts 0 1 true true false [ringAhead, closedExit] exampleRing).length
        = [ringAhead, closedExit].length ∧
      (∀ (i : Nat) (c : TurnCandidate), [ringAhead, closedExit][i]? = some c →
        c.valid = true →
        ((handleRoundabouts 0 1 true true false [ringAhead, closedExit] exampleRing)[i]?).map
            (fun r => r.instruction.type)
          = some .StayOnRoundabout) ∧
      (∀ r ∈ handleRoundabouts 0 1 true true false [ringAhead, closedExit] exampleRing,
        r.instruction.type = .EnterRoundabout → r ∈ [ringAhead, closedExit])) :=
  have hexit : ∀ c ∈ [ringAhead, closedExit], c.valid = true →
      (exampleRing.GetEdgeData c.eid).roundabout = true := by
    simp [ringAhead, closedExit, exampleRing]
  ⟨hexit, handleRoundabouts_stay 0 1 true false [ringAhead, closedExit] exampleRing hexit⟩

/-- The roundabout handler on the example: the continuation on the ring becomes
    `StayOnRoundabout`, the closed side road is left as it was; and arriving from
    outside, the ring edge becomes `EnterRoundabout`. -/
theorem handleRoundabouts_example :
    handleRoundabouts 0 1 true true false [ringAhead, closedExit] exampleRing =
      [ringAhead.withType .StayOnRoundabout, closedExit] ∧
    handleRoundabouts 0 3 false true false [ringAhead, closedExit] exampleRing =
      [ringAhead.withType .EnterRoundabout, closedExit] := by
  simp [handleRoundabouts, roundaboutCandidate, ringAhead, closedExit, exampleRing]

/-- C12, on the example motorway: leaving the motorway, edge 5, by its exit, edge 6. -/
theorem turnOrRamp_ramp_witness :
    ((isRampClass (exampleRing.GetEdgeData motorwayExit.eid).road_class = true ∧
        isRampClass (exampleRing.GetEdgeData 5).road_class = false) ∨
      (isRampClass (exampleRing.GetEdgeData motorwayExit.eid).road_class = false ∧
        isRampClass (exampleRing.GetEdgeData 5).road_class = true)) ∧
    (turnOrRamp 0 5 motorwayExit exampleRing = .Ramp ∧
      turnOrRamp 0 5 motorwayExit exampleRing ≠ .Turn) :=
  ⟨Or.inl ⟨by decide, by decide⟩,
    turnOrRamp_ramp 0 5 motorwayExit exampleRing (Or.inl ⟨by decide, by decide⟩)⟩

/-- Between two edges of the same kind `turnOrRamp` answers `Turn`: from the
    residential edge 3 onto the residential edge 4. -/
theorem turnOrRamp_example :
    turnOrRamp 0 3 sideRoad exampleRing = .Turn := by
  decide

/-- The closing assertions of `MergeBoundingBoxes` hold when a rectangle with bounds
    above the least 32-bit value is merged into the default-constructed one, and fail
    when the default-constructed rectangle is merged into itself. -/
theorem MergeBoundingBoxes_assertions_example :
    RectangleInt2D.MergeBoundingBoxes_assertions RectangleInt2D.defaultConstructed
        ⟨1, 2, 3, 4⟩ = true ∧
    RectangleInt2D.MergeBoundingBoxes_assertions RectangleInt2D.defaultConstructed
        RectangleInt2D.defaultConstructed = false := by
  decide

/-! ## Injectivity of `instructionToString` -/

/-- C21: in either file two instructions that both produce a token, reaching no
    assertion, and produce the same token are the same instruction; and for an
    instruction that produces a token in one file the other file produces the same
    token, again reaching no assertion. -/
theorem instructionToString_injective :
    (∀ i j : TurnInstruction,
      (JsonFactory.instructionToString i).assertion = none →
      (JsonFactory.instructionToString j).assertion = none →
      (JsonFactory.instructionToString i).token = (JsonFactory.instructionToString j).token →
      i = j) ∧
    (∀ i j : TurnInstruction,
      (JosnFactory.instructionToString i).assertion = none →
      (JosnFactory.instructionToString j).assertion = none →
      (JosnFactory.instructionToString i).token = (JosnFactory.instructionToString j).token →
      i = j) ∧
    (∀ i : TurnInstruction,
      (JsonFactory.instructionToString i).assertion = none ∨
        (JosnFactory.instructionToString i).assertion = none →
      (JosnFactory.instructionToString i).token = (JsonFactory.instructionToString i).token ∧
        (JosnFactory.instructionToString i).token ≠ "" ∧
        (JsonFactory.instructionToString i).assertion = none ∧
        (JosnFactory.instructionToString i).assertion = none) := by
  refine ⟨?_, ?_, ?_⟩
  · intro i j
    cases i <;> cases j <;> decide
  · intro i j
    cases i <;> cases j <;> decide
  · intro i
    cases i <;> decide

end Osrm
